import Mathlib

/-!
# Verification of the libproc-rs process-query layer

Shallow embedding of `src/libproc/proc_pid.rs` and the TCP-socket decode of
`src/bin/procinfo.rs`.  The kernel entry points (`proc_listpids`,
`proc_pidinfo`, `proc_pidfdinfo`, `proc_name`, `proc_regionfilename`,
`proc_pidpath`, `proc_libversion`) are external collaborators; each Rust
function is embedded as a Lean function over an explicit kernel oracle
recording the integer return value(s) of the call(s), the captured
last-OS-error value, and the bytes/elements the kernel writes into the
caller-supplied buffer.
-/

namespace LibProc

/-- `PROC_PIDPATHINFO_MAXSIZE = 4 * MAXPATHLEN` where `MAXPATHLEN = 1024`,
as defined at the top of `proc_pid.rs`. -/
def MAXPATHLEN : Nat := 1024

/-- `pub const PROC_PIDPATHINFO_MAXSIZE: usize = 4 * MAXPATHLEN;` -/
def PROC_PIDPATHINFO_MAXSIZE : Nat := 4 * MAXPATHLEN

/-- The errors the layer returns: `Error::last_os_error()` (carrying the
host's captured errno) and the `ErrorKind::Other` "Invalid UTF-8 sequence"
decode error built in the text queries. -/
inductive ProcError where
  | osError (errno : Int)
  | utf8Error
deriving DecidableEq, Repr

/-- Outcome of a Rust function call that may `panic!` (via `assert!`)
instead of returning. -/
inductive RustOutcome (α : Type) where
  | panicked
  | returned (val : α)
deriving DecidableEq, Repr

/-- Rust `usize::checked_sub`: `some (a - b)` when `b ≤ a`, else `none`. -/
def checkedSub (a b : Nat) : Option Nat :=
  if a < b then none else some (a - b)

/-! ## listpids -/

/-- Kernel oracle for the two `proc_listpids` calls made by `listpids`:
the zero-size probe's return value, the fill call's return value, the
captured last-OS-error, and the `u32` values the fill call writes into the
buffer (by element index). -/
structure ListPidsKernel where
  probeRet : Int
  fillRet : Int
  lastError : Int
  mem : Nat → Nat

/-- Embedding of `listpids` (proc_pid.rs lines 313-337).  Probe with a null
buffer; `buffer_size <= 0` fails with the OS error.  Otherwise re-issue the
query; `ret <= 0` fails with the OS error; else the element count is
`(ret as usize / size_of::<u32>()).checked_sub(1).unwrap_or(0)` and the
vector is the kernel-written elements up to that count. -/
def listpids (k : ListPidsKernel) : Except ProcError (List Nat) :=
  if k.probeRet ≤ 0 then
    .error (.osError k.lastError)
  else
    if k.fillRet ≤ 0 then
      .error (.osError k.lastError)
    else
      let itemsCount := (checkedSub (k.fillRet.toNat / 4) 1).getD 0
      .ok ((List.range itemsCount).map (fun i => k.mem i % 4294967296))

/-! ## listpidinfo -/

/-- Kernel oracle for the single `proc_pidinfo` call made by `listpidinfo`:
the integer return, the captured last-OS-error, and the elements the kernel
writes into the buffer (by element index). -/
structure ListPidInfoKernel (α : Type) where
  ret : Int
  lastError : Int
  mem : Nat → α

/-- Embedding of `listpidinfo` (proc_pid.rs lines 535-560).
`assert!(max_len <= PROC_PIDPATHINFO_MAXSIZE)` panics when violated.
Otherwise a buffer of `max_len` elements of size `itemSize` is presented to
the kernel; `ret < 0` is an OS error, `ret == 0` is `Ok(vec![])`, and
`ret > 0` truncates the `max_len`-element buffer to
`ret as usize / size_of::<T::Item>()` elements. -/
def listpidinfo {α : Type} (itemSize : Nat) (k : ListPidInfoKernel α)
    (maxLen : Nat) : RustOutcome (Except ProcError (List α)) :=
  if PROC_PIDPATHINFO_MAXSIZE < maxLen then
    .panicked
  else
    if k.ret < 0 then
      .returned (.error (.osError k.lastError))
    else if k.ret = 0 then
      .returned (.ok [])
    else
      let actualLen := k.ret.toNat / itemSize
      .returned (.ok ((List.range (min maxLen actualLen)).map k.mem))

/-! ## pidinfo / pidfdinfo -/

/-- Kernel oracle for one `proc_pidinfo` / `proc_pidfdinfo` fixed-record
call: the integer return, the captured last-OS-error, and the prefix of
record fields the kernel writes (the kernel may legitimately write fewer
fields than the record has). -/
structure PidInfoKernel where
  ret : Int
  lastError : Int
  written : List Int

/-- The buffer handed to the kernel is `T::default()` (all fields zero for
the record types of proc_pid.rs); the kernel overwrites a prefix of its
fields. -/
def kernelFill (dflt written : List Int) : List Int :=
  written.take dflt.length ++ dflt.drop written.length

/-- Embedding of `pidinfo` (proc_pid.rs lines 362-378), with the record
represented as its list of field values (`arity` fields, default 0 each).
`ret <= 0` is an OS error; `ret > 0` returns the populated record as-is. -/
def pidinfo (arity : Nat) (k : PidInfoKernel) : Except ProcError (List Int) :=
  let buf := List.replicate arity 0
  let filled := kernelFill buf k.written
  if k.ret ≤ 0 then .error (.osError k.lastError) else .ok filled

/-- Embedding of `pidfdinfo` (proc_pid.rs lines 686-702); same shape as
`pidinfo` with the fd argument in place of the aux argument. -/
def pidfdinfo (arity : Nat) (k : PidInfoKernel) : Except ProcError (List Int) :=
  let buf := List.replicate arity 0
  let filled := kernelFill buf k.written
  if k.ret ≤ 0 then .error (.osError k.lastError) else .ok filled

/-! ## libversion -/

/-- Kernel oracle for `proc_libversion`: the integer return, the captured
last-OS-error, and the values the callee stores through the two out
pointers. -/
structure LibVersionKernel where
  ret : Int
  lastError : Int
  majorOut : Int
  minorOut : Int

/-- Embedding of `libversion` (proc_pid.rs lines 447-462): return value 0
(and only 0) is success, yielding the (major, minor) pair the callee wrote;
any nonzero return is an OS error. -/
def libversion (k : LibVersionKernel) : Except ProcError (Int × Int) :=
  if k.ret = 0 then .ok (k.majorOut, k.minorOut)
  else .error (.osError k.lastError)

/-! ## Text queries: pidpath, name, regionfilename

The three text helpers share one pattern: buffer of capacity
`PROC_PIDPATHINFO_MAXSIZE - 1`, `ret <= 0` is an OS error, otherwise
`set_len(ret)` keeps exactly the first `ret` bytes and `String::from_utf8`
either produces a string or an "Invalid UTF-8 sequence" error. -/

/-- A UTF-8 continuation byte: `0x80 ≤ b ≤ 0xBF`. -/
def isCont (b : Nat) : Bool := 0x80 ≤ b && b ≤ 0xBF

/-- Decode one UTF-8 scalar value from the front of a byte list, per
RFC 3629 (as `String::from_utf8` validates): rejects overlong encodings,
surrogate code points and values above `0x10FFFF`.  Returns the scalar and
the remaining bytes. -/
def utf8Step : List Nat → Option (Nat × List Nat)
  | [] => none
  | b0 :: rest =>
    if b0 ≤ 0x7F then
      some (b0, rest)
    else if 0xC2 ≤ b0 && b0 ≤ 0xDF then
      match rest with
      | b1 :: rest1 =>
        if isCont b1 then some ((b0 - 0xC0) * 64 + (b1 - 0x80), rest1) else none
      | [] => none
    else if 0xE0 ≤ b0 && b0 ≤ 0xEF then
      match rest with
      | b1 :: b2 :: rest2 =>
        let lo1 := if b0 = 0xE0 then 0xA0 else 0x80
        let hi1 := if b0 = 0xED then 0x9F else 0xBF
        if (lo1 ≤ b1 && b1 ≤ hi1) && isCont b2 then
          some ((b0 - 0xE0) * 4096 + (b1 - 0x80) * 64 + (b2 - 0x80), rest2)
        else none
      | _ => none
    else if 0xF0 ≤ b0 && b0 ≤ 0xF4 then
      match rest with
      | b1 :: b2 :: b3 :: rest3 =>
        let lo1 := if b0 = 0xF0 then 0x90 else 0x80
        let hi1 := if b0 = 0xF4 then 0x8F else 0xBF
        if (lo1 ≤ b1 && b1 ≤ hi1) && isCont b2 && isCont b3 then
          some ((b0 - 0xF0) * 262144 + (b1 - 0x80) * 4096
                  + (b2 - 0x80) * 64 + (b3 - 0x80), rest3)
        else none
      | _ => none
    else none

/-- Scalar-at-a-time decoding loop; `fuel` bounds the number of scalars
decoded.  Since `utf8Step` consumes at least one byte per scalar, fuel
equal to the byte count is always enough. -/
def utf8DecodeAux : Nat → List Nat → Option (List Nat)
  | _, [] => some []
  | 0, _ :: _ => none
  | fuel + 1, b :: bs =>
    match utf8Step (b :: bs) with
    | some (cp, rest) => (utf8DecodeAux fuel rest).map (fun cps => cp :: cps)
    | none => none

/-- Full UTF-8 validation/decoding of a byte list into scalar values;
`none` exactly when the bytes are not valid UTF-8. -/
def utf8Decode (l : List Nat) : Option (List Nat) :=
  utf8DecodeAux l.length l

/-- Kernel oracle for one text query call (`proc_pidpath`, `proc_name` or
`proc_regionfilename`): integer return, captured last-OS-error, and the
byte the kernel writes at each buffer index. -/
structure TextKernel where
  ret : Int
  lastError : Int
  mem : Nat → Nat

/-- The first `n` bytes of the kernel-filled buffer. -/
def TextKernel.bytes (k : TextKernel) (n : Nat) : List Nat :=
  (List.range n).map (fun i => k.mem i % 256)

/-- Embedding of `pidpath` (proc_pid.rs lines 407-432). -/
def pidpath (k : TextKernel) : Except ProcError String :=
  if k.ret ≤ 0 then .error (.osError k.lastError)
  else
    match utf8Decode (k.bytes k.ret.toNat) with
    | some cps => .ok (String.mk (cps.map Char.ofNat))
    | none => .error .utf8Error

/-- Embedding of `name` (proc_pid.rs lines 477-502); same pattern as
`pidpath` over the `proc_name` call. -/
def name (k : TextKernel) : Except ProcError String :=
  if k.ret ≤ 0 then .error (.osError k.lastError)
  else
    match utf8Decode (k.bytes k.ret.toNat) with
    | some cps => .ok (String.mk (cps.map Char.ofNat))
    | none => .error .utf8Error

/-- Embedding of `regionfilename` (proc_pid.rs lines 380-405); same pattern
over the `proc_regionfilename` call. -/
def regionfilename (k : TextKernel) : Except ProcError String :=
  if k.ret ≤ 0 then .error (.osError k.lastError)
  else
    match utf8Decode (k.bytes k.ret.toNat) with
    | some cps => .ok (String.mk (cps.map Char.ofNat))
    | none => .error .utf8Error

/-! ## Discriminant-to-kind mappings -/

/-- `ProcFDType` (proc_pid.rs lines 586-606). -/
inductive ProcFDType where
  | ATalk
  | VNode
  | Socket
  | PSHM
  | PSEM
  | KQueue
  | Pipe
  | FSEvents
  | Unknown
deriving DecidableEq, Repr

/-- `impl From<u32> for ProcFDType` (proc_pid.rs lines 608-622). -/
def ProcFDType.fromU32 (value : Nat) : ProcFDType :=
  match value with
  | 0 => .ATalk
  | 1 => .VNode
  | 2 => .Socket
  | 3 => .PSHM
  | 4 => .PSEM
  | 5 => .KQueue
  | 6 => .Pipe
  | 7 => .FSEvents
  | _ => .Unknown

/-- `SocketInfoKind` (proc_pid.rs lines 727-744). -/
inductive SocketInfoKind where
  | Generic
  | In
  | Tcp
  | Un
  | Ndrv
  | KernEvent
  | KernCtl
  | Unknown
deriving DecidableEq, Repr

/-- `impl From<c_int> for SocketInfoKind` (proc_pid.rs lines 746-759). -/
def SocketInfoKind.fromCInt (value : Int) : SocketInfoKind :=
  match value with
  | 0 => .Generic
  | 1 => .In
  | 2 => .Tcp
  | 3 => .Un
  | 4 => .Ndrv
  | 5 => .KernEvent
  | 6 => .KernCtl
  | _ => .Unknown

/-! ## TCP socket record and its decode (procinfo.rs lines 55-84)

Machine integers are bit patterns: a `c_int`/`u32` field is a `Nat` below
`2^32`; shifts that can overflow take an explicit `% 2^32`; `>>` on `c_int`
is an arithmetic (sign-propagating) shift on the two's-complement
pattern. -/

/-- Arithmetic shift right of a 32-bit two's-complement pattern
(Rust `>>` on `i32`), for shift amounts `n ≤ 32`. -/
def i32Shr (x n : Nat) : Nat :=
  if x < 2147483648 then x >>> n
  else (x >>> n) + (4294967296 - 2 ^ (32 - n))

/-- Shift left of a 32-bit pattern, discarding bits shifted out
(Rust `<<` on `i32`/`u32`). -/
def i32Shl (x n : Nat) : Nat := (x <<< n) % 4294967296

/-- `struct In4In6Addr` (proc_pid.rs lines 842-847): 12 bytes of padding
then an `in_addr`, whose `s_addr` is a `u32` holding the IPv4 address in
network byte order. -/
structure In4In6Addr where
  i46a_pad32 : Fin 3 → Nat
  i46a_addr4 : Nat

/-- `union InSIAddr` (proc_pid.rs lines 890-895), read through its
`ina_46` arm (the only access the decoder performs, sanctioned by the
socket's discriminant). -/
structure InSIAddr where
  ina_46 : In4In6Addr

/-- `struct InSockInfo` (proc_pid.rs lines 858-873); each integer field is
its 32/64-bit pattern.  `insi_lport` is a `c_int` holding the 16-bit local
port in network byte order in its low half. -/
structure InSockInfo where
  insi_fport : Nat
  insi_lport : Nat
  insi_gencnt : Nat
  insi_flags : Nat
  insi_flow : Nat
  insi_vflag : Nat
  insi_ip_ttl : Nat
  rfu_1 : Nat
  insi_faddr : InSIAddr
  insi_laddr : InSIAddr

/-- `struct TcpSockInfo` (proc_pid.rs lines 957-967). -/
structure TcpSockInfo where
  tcpsi_ini : InSockInfo
  tcpsi_state : Nat
  tcpsi_timer : Fin 4 → Nat
  tcpsi_mss : Nat
  tcpsi_flags : Nat
  rfu_1 : Nat
  tcpsi_tp : Nat

/-- The port decode of procinfo.rs lines 60-62: byte-swap the two bytes of
the 16-bit network-order port held in the `c_int` field
(`port |= lport >> 8 & 0x00ff; port |= lport << 8 & 0xff00`). -/
def decodePort (info : TcpSockInfo) : Nat :=
  let lport := info.tcpsi_ini.insi_lport
  (i32Shr lport 8 &&& 0x00ff) ||| (i32Shl lport 8 &&& 0xff00)

/-- The address byte swap of procinfo.rs lines 70-74 on the `u32`
`s_addr` field read through `insi_laddr.ina_46.i46a_addr4`. -/
def decodeAddr (info : TcpSockInfo) : Nat :=
  let s := info.tcpsi_ini.insi_laddr.ina_46.i46a_addr4
  (s >>> 24 &&& 0x000000ff) ||| (s >>> 8 &&& 0x0000ff00) |||
    (i32Shl s 8 &&& 0x00ff0000) ||| (i32Shl s 24 &&& 0xff000000)

/-- The four dot-separated octets of procinfo.rs lines 76-83
(`addr >> 24 & 0xff`, `addr >> 16 & 0xff`, `addr >> 8 & 0xff`,
`addr & 0xff`). -/
def decodeAddrString (info : TcpSockInfo) : String :=
  let addr := decodeAddr info
  toString (addr >>> 24 &&& 0xff) ++ "." ++ toString (addr >>> 16 &&& 0xff)
    ++ "." ++ toString (addr >>> 8 &&& 0xff) ++ "." ++ toString (addr &&& 0xff)

/-- The value a little-endian host reads from a 16-bit field stored in
network (big-endian) byte order: the two bytes of `p` swapped. -/
def hostReadNet16 (p : Nat) : Nat := (p % 256) * 256 + (p / 256) % 256

/-- The value a little-endian host reads from a 32-bit field stored in
network (big-endian) byte order: the four bytes of `a` reversed. -/
def hostReadNet32 (a : Nat) : Nat :=
  (a % 256) * 16777216 + (a / 256 % 256) * 65536
    + (a / 65536 % 256) * 256 + a / 16777216 % 256

/-- An IPv4 address as the 32-bit number `a.b.c.d`. -/
def ipv4 (a b c d : Nat) : Nat := a * 16777216 + b * 65536 + c * 256 + d

/-- A synthetic TCP socket record whose local port field holds 8080 in
network order and whose local IPv4 address field holds 127.0.0.1 in
network order; every other field is zero. -/
def syntheticTcp : TcpSockInfo where
  tcpsi_ini :=
    { insi_fport := 0
      insi_lport := hostReadNet16 8080
      insi_gencnt := 0
      insi_flags := 0
      insi_flow := 0
      insi_vflag := 0
      insi_ip_ttl := 0
      rfu_1 := 0
      insi_faddr := ⟨⟨fun _ => 0, 0⟩⟩
      insi_laddr := ⟨⟨fun _ => 0, hostReadNet32 (ipv4 127 0 0 1)⟩⟩ }
  tcpsi_state := 0
  tcpsi_timer := fun _ => 0
  tcpsi_mss := 0
  tcpsi_flags := 0
  rfu_1 := 0
  tcpsi_tp := 0

/-! ## Claims -/

/-- C1: for the list-of-PIDs query, when the second-phase query succeeds
with ret > 0 bytes written, the returned vector's element count equals
(ret / 4) - 1 (one element discounted, in saturating natural subtraction);
and if the zero-size probe phase returns ≤ 0 the operation fails with an
OS error before any buffer is filled (the error does not depend on the
fill-phase fields of the oracle). -/
theorem listpids_count_and_probe (k : ListPidsKernel) :
    (k.probeRet ≤ 0 → listpids k = .error (.osError k.lastError)) ∧
    (0 < k.probeRet → 0 < k.fillRet →
      ∃ l, listpids k = .ok l ∧ l.length = k.fillRet.toNat / 4 - 1) := by
  constructor
  · intro h
    simp [listpids, h]
  · intro hp hf
    refine ⟨(List.range ((checkedSub (k.fillRet.toNat / 4) 1).getD 0)).map
        (fun i => k.mem i % 4294967296), ?_, ?_⟩
    · simp [listpids, not_le.mpr hp, not_le.mpr hf]
    · simp only [List.length_map, List.length_range, checkedSub]
      split
      all_goals simp only [Option.getD_none, Option.getD_some]
      all_goals omega

/-- Witness for C1: probe failure returns the OS error; a fill return of
12 bytes yields a 2-element list. -/
theorem listpids_count_and_probe_witness :
    listpids ⟨-1, 12, 7, fun _ => 0⟩ = .error (.osError 7) ∧
    ∃ l, listpids ⟨12, 12, 0, fun _ => 5⟩ = .ok l ∧ l.length = 2 := by
  refine ⟨(listpids_count_and_probe _).1 (by norm_num), ?_⟩
  obtain ⟨l, h1, h2⟩ :=
    (listpids_count_and_probe ⟨12, 12, 0, fun _ => 5⟩).2 (by norm_num) (by norm_num)
  exact ⟨l, h1, h2.trans (by decide)⟩

/-- C10: in `listpids`, the one-element discount saturates at zero: for
every second-phase return ret > 0 with ret / 4 ≤ 1, the call returns Ok
with an empty list — no underflow, no wrap-around, no error. -/
theorem listpids_discount_saturates (k : ListPidsKernel)
    (hp : 0 < k.probeRet) (hf : 0 < k.fillRet)
    (hs : k.fillRet.toNat / 4 ≤ 1) :
    listpids k = .ok [] := by
  simp only [listpids, not_le.mpr hp, not_le.mpr hf, if_false, checkedSub]
  have : (if k.fillRet.toNat / 4 < 1 then (none : Option Nat)
      else some (k.fillRet.toNat / 4 - 1)).getD 0 = 0 := by
    split
    all_goals simp only [Option.getD_none, Option.getD_some]
    all_goals omega
  rw [this]
  simp

/-- Witness for C10: a fill return of 4 bytes (one sentinel element only)
yields the empty list. -/
theorem listpids_discount_saturates_witness :
    listpids ⟨4, 4, 0, fun _ => 9⟩ = .ok [] :=
  listpids_discount_saturates ⟨4, 4, 0, fun _ => 9⟩ (by norm_num) (by norm_num)
    (by decide)

/-- C3: `libversion` succeeds iff the underlying call returns exactly 0;
on success it returns the (major, minor) pair written by the callee, and
on any nonzero return it yields an OS error. -/
theorem libversion_zero_is_success (k : LibVersionKernel) :
    ((∃ p, libversion k = .ok p) ↔ k.ret = 0) ∧
    (k.ret = 0 → libversion k = .ok (k.majorOut, k.minorOut)) ∧
    (k.ret ≠ 0 → libversion k = .error (.osError k.lastError)) := by
  by_cases h : k.ret = 0 <;> simp [libversion, h]

/-- Witness for C3: return 0 succeeds with the written pair; the positive
return 1 — success for every other query in the family — is an error
here. -/
theorem libversion_zero_is_success_witness :
    libversion ⟨0, 7, 4, 2⟩ = .ok (4, 2) ∧
    libversion ⟨1, 5, 4, 2⟩ = .error (.osError 5) :=
  ⟨(libversion_zero_is_success ⟨0, 7, 4, 2⟩).2.1 rfl,
   (libversion_zero_is_success ⟨1, 5, 4, 2⟩).2.2 (by norm_num)⟩

/-- C6: decoding the TCP arm round-trips network-byte-order fields: a
synthetic TCP socket record whose local port field holds 8080 in network
order and whose local IPv4 address field holds 127.0.0.1 in network order
decodes to port 8080 and address string "127.0.0.1". -/
theorem tcp_decode_roundtrip :
    decodePort syntheticTcp = 8080 ∧
    decodeAddrString syntheticTcp = "127.0.0.1" :=
  ⟨rfl, rfl⟩

/-- C8: the discriminant-to-kind mappings are total over a closed set:
`ProcFDType.fromU32` maps 0..7 to the eight named kinds and everything
else to Unknown; `SocketInfoKind.fromCInt` maps 0..6 to the seven named
kinds and every other integer (negative ones included) to Unknown. -/
theorem discriminant_maps_total :
    (ProcFDType.fromU32 0 = .ATalk ∧ ProcFDType.fromU32 1 = .VNode ∧
     ProcFDType.fromU32 2 = .Socket ∧ ProcFDType.fromU32 3 = .PSHM ∧
     ProcFDType.fromU32 4 = .PSEM ∧ ProcFDType.fromU32 5 = .KQueue ∧
     ProcFDType.fromU32 6 = .Pipe ∧ ProcFDType.fromU32 7 = .FSEvents) ∧
    (∀ v : Nat, 8 ≤ v → ProcFDType.fromU32 v = .Unknown) ∧
    (SocketInfoKind.fromCInt 0 = .Generic ∧ SocketInfoKind.fromCInt 1 = .In ∧
     SocketInfoKind.fromCInt 2 = .Tcp ∧ SocketInfoKind.fromCInt 3 = .Un ∧
     SocketInfoKind.fromCInt 4 = .Ndrv ∧ SocketInfoKind.fromCInt 5 = .KernEvent ∧
     SocketInfoKind.fromCInt 6 = .KernCtl) ∧
    (∀ v : Int, v < 0 ∨ 6 < v → SocketInfoKind.fromCInt v = .Unknown) := by
  refine ⟨by decide, ?_, by decide, ?_⟩
  · intro v hv
    obtain ⟨w, rfl⟩ : ∃ w, v = w + 8 := ⟨v - 8, by omega⟩
    rfl
  · intro v hv
    match v, hv with
    | .negSucc n, _ => rfl
    | .ofNat n, hv =>
      have hn : 7 ≤ n := by
        simp only [Int.ofNat_eq_coe] at hv
        rcases hv with h | h
        · omega
        · omega
      obtain ⟨w, rfl⟩ : ∃ w, n = w + 7 := ⟨n - 7, by omega⟩
      rfl

/-- Witness for C8: out-of-range discriminants, a negative one included,
map to Unknown. -/
theorem discriminant_maps_total_witness :
    ProcFDType.fromU32 42 = .Unknown ∧
    SocketInfoKind.fromCInt (-3) = .Unknown ∧
    SocketInfoKind.fromCInt 99 = .Unknown :=
  ⟨discriminant_maps_total.2.1 42 (by norm_num),
   discriminant_maps_total.2.2.2 (-3) (Or.inl (by norm_num)),
   discriminant_maps_total.2.2.2 99 (Or.inr (by norm_num))⟩

/-- C2 counterexample: with `max_len = 4097 > PROC_PIDPATHINFO_MAXSIZE`
the call does not return a typed failure to the caller — it panics
(`assert!` failure), which is a distinct outcome from every
`RustOutcome.returned` value, typed errors included. -/
theorem listpidinfo_assert_counterexample :
    listpidinfo 8 ⟨0, 0, fun _ => (0 : Nat)⟩ 4097 = .panicked := rfl

/-- C2 amended: for every call to `listpidinfo` with `max_len` exceeding
`PROC_PIDPATHINFO_MAXSIZE`, the call is rejected before the kernel query
is issued (the outcome is the same for every kernel oracle), but the
rejection is an assertion panic, not a typed error returned to the
caller. -/
theorem listpidinfo_rejects_oversized_by_panic {α : Type} (itemSize : Nat)
    (k : ListPidInfoKernel α) (maxLen : Nat)
    (h : PROC_PIDPATHINFO_MAXSIZE < maxLen) :
    listpidinfo itemSize k maxLen = .panicked := by
  simp [listpidinfo, h]

/-- Witness for the amended C2: `max_len = 4097` panics whatever the
kernel would have answered. -/
theorem listpidinfo_rejects_oversized_by_panic_witness :
    listpidinfo 8 ⟨100, 3, fun _ => (1 : Nat)⟩ 4097 = .panicked :=
  listpidinfo_rejects_oversized_by_panic 8 ⟨100, 3, fun _ => (1 : Nat)⟩ 4097
    (by norm_num [PROC_PIDPATHINFO_MAXSIZE, MAXPATHLEN])

/-- C4: for `listpidinfo` with `max_len ≤ PROC_PIDPATHINFO_MAXSIZE`:
a kernel return of 0 is Ok with the empty list; a return of ret > 0 bytes
is Ok with min max_len (ret / itemSize) elements — exactly
ret / itemSize when the kernel wrote within the buffer it was given;
a negative return is an OS error; every success has length ≤ max_len and
element i equal to the kernel's element i (kernel order preserved). -/
theorem listpidinfo_cases {α : Type} (itemSize : Nat) (k : ListPidInfoKernel α)
    (maxLen : Nat) (hm : maxLen ≤ PROC_PIDPATHINFO_MAXSIZE) :
    (k.ret < 0 →
      listpidinfo itemSize k maxLen = .returned (.error (.osError k.lastError))) ∧
    (k.ret = 0 → listpidinfo itemSize k maxLen = .returned (.ok [])) ∧
    (0 < k.ret →
      ∃ l : List α, listpidinfo itemSize k maxLen = .returned (.ok l) ∧
        l.length = min maxLen (k.ret.toNat / itemSize) ∧
        l.length ≤ maxLen ∧
        (0 < itemSize → k.ret.toNat ≤ maxLen * itemSize →
          l.length = k.ret.toNat / itemSize) ∧
        ∀ i (hi : i < l.length), l.get ⟨i, hi⟩ = k.mem i) := by
  have hmax : ¬ PROC_PIDPATHINFO_MAXSIZE < maxLen := not_lt.mpr hm
  refine ⟨?_, ?_, ?_⟩
  · intro h
    simp [listpidinfo, hmax, h]
  · intro h
    simp [listpidinfo, hmax, h]
  · intro h
    refine ⟨(List.range (min maxLen (k.ret.toNat / itemSize))).map k.mem,
      ?_, ?_, ?_, ?_, ?_⟩
    · simp [listpidinfo, hmax, not_lt.mpr h.le, h.ne.symm]
    · simp
    · simp
    · intro hsz hle
      have hdiv : k.ret.toNat / itemSize ≤ maxLen := by
        have := Nat.div_le_div_right (c := itemSize) hle
        rwa [Nat.mul_div_cancel _ hsz] at this
      simp [Nat.min_eq_right hdiv]
    · intro i hi
      simp only [List.length_map, List.length_range] at hi
      simp [List.get_eq_getElem]

/-- Witness for C4: with element size 8 and `max_len = 4`, a return of -1
is the OS error, a return of 0 the empty list, and a return of 16 bytes a
2-element list preserving the kernel's elements. -/
theorem listpidinfo_cases_witness :
    (listpidinfo 8 (⟨-1, 13, fun i => i + 50⟩ : ListPidInfoKernel Nat) 4
      = .returned (.error (.osError 13))) ∧
    (listpidinfo 8 (⟨0, 13, fun i => i + 50⟩ : ListPidInfoKernel Nat) 4
      = .returned (.ok [])) ∧
    ∃ l : List Nat,
      listpidinfo 8 (⟨16, 13, fun i => i + 50⟩ : ListPidInfoKernel Nat) 4
        = .returned (.ok l) ∧ l.length = 2 := by
  have hm : (4 : Nat) ≤ PROC_PIDPATHINFO_MAXSIZE := by
    norm_num [PROC_PIDPATHINFO_MAXSIZE, MAXPATHLEN]
  refine ⟨(listpidinfo_cases 8 _ 4 hm).1 (by norm_num),
    (listpidinfo_cases 8 _ 4 hm).2.1 rfl, ?_⟩
  obtain ⟨l, h1, h2, -, -, -⟩ :=
    (listpidinfo_cases 8 (⟨16, 13, fun i => i + 50⟩ : ListPidInfoKernel Nat) 4
      hm).2.2 (by norm_num)
  exact ⟨l, h1, h2.trans (by decide)⟩

/-- C9: for every call to `listpidinfo` with `max_len = 0`, the result is
either an OS error (negative kernel return) or the empty list — never a
non-empty list, whatever byte count the kernel reports. -/
theorem listpidinfo_zero_maxlen {α : Type} (itemSize : Nat)
    (k : ListPidInfoKernel α) :
    (k.ret < 0 →
      listpidinfo itemSize k 0 = .returned (.error (.osError k.lastError))) ∧
    (0 ≤ k.ret → listpidinfo itemSize k 0 = .returned (.ok ([] : List α))) := by
  have hmax : ¬ PROC_PIDPATHINFO_MAXSIZE < 0 := by omega
  constructor
  · intro h
    simp [listpidinfo, hmax, h]
  · intro h
    rcases lt_or_eq_of_le h with h' | h'
    · simp [listpidinfo, hmax, not_lt.mpr h'.le, h'.ne.symm]
    · simp [listpidinfo, hmax, ← h']

/-- Witness for C9: with `max_len = 0`, a return of -7 is the OS error and
a (nonzero!) return of 24 bytes is still the empty list. -/
theorem listpidinfo_zero_maxlen_witness :
    (listpidinfo 8 (⟨-7, 3, fun i => i⟩ : ListPidInfoKernel Nat) 0
      = .returned (.error (.osError 3))) ∧
    (listpidinfo 8 (⟨24, 3, fun i => i⟩ : ListPidInfoKernel Nat) 0
      = .returned (.ok [])) :=
  ⟨(listpidinfo_zero_maxlen 8 _).1 (by norm_num),
   (listpidinfo_zero_maxlen 8 _).2 (by norm_num)⟩

/-- C5: for the fixed-record queries `pidinfo` and `pidfdinfo`, a kernel
return ≤ 0 is an error carrying the host's captured last-error value, and
a return > 0 yields the populated record as-is: the record has exactly its
`arity` fields, the kernel-written prefix is returned unchanged, and every
field beyond what the kernel wrote reads as the type's default (0),
because the record was default-initialized before the call. -/
theorem pidinfo_cases (arity : Nat) (k : PidInfoKernel) :
    (k.ret ≤ 0 →
      pidinfo arity k = .error (.osError k.lastError) ∧
      pidfdinfo arity k = .error (.osError k.lastError)) ∧
    (0 < k.ret →
      ∃ v, pidinfo arity k = .ok v ∧ pidfdinfo arity k = .ok v ∧
        v.length = arity ∧
        (∀ i, i < arity → i < k.written.length → v[i]? = k.written[i]?) ∧
        (∀ i, k.written.length ≤ i → i < arity → v[i]? = some 0)) := by
  constructor
  · intro h
    exact ⟨by simp [pidinfo, h], by simp [pidfdinfo, h]⟩
  · intro h
    refine ⟨kernelFill (List.replicate arity 0) k.written, ?_, ?_, ?_, ?_, ?_⟩
    · simp [pidinfo, not_le.mpr h]
    · simp [pidfdinfo, not_le.mpr h]
    · simp only [kernelFill, List.length_append, List.length_take,
        List.length_drop, List.length_replicate]
      omega
    · intro i hia hiw
      have ht : i < (k.written.take (List.replicate arity (0 : Int)).length).length := by
        simp only [List.length_take, List.length_replicate]
        omega
      rw [kernelFill, List.getElem?_append_left ht,
        List.getElem?_take_of_lt (by simpa using hia)]
    · intro i hwi hia
      have ht : (k.written.take (List.replicate arity (0 : Int)).length).length ≤ i := by
        simp only [List.length_take, List.length_replicate]
        omega
      rw [kernelFill, List.getElem?_append_right ht, List.drop_replicate,
        List.getElem?_replicate, if_pos]
      simp only [List.length_take, List.length_replicate]
      omega

/-- Witness for C5: a record of 4 fields with the kernel writing the
two-field prefix `[7, 8]`: failure carries the errno, success returns
`[7, 8]` then defaults. -/
theorem pidinfo_cases_witness :
    (pidinfo 4 ⟨-2, 11, [7, 8]⟩ = .error (.osError 11) ∧
      pidfdinfo 4 ⟨-2, 11, [7, 8]⟩ = .error (.osError 11)) ∧
    ∃ v, pidinfo 4 ⟨1, 11, [7, 8]⟩ = .ok v ∧ v.length = 4 ∧
      v[1]? = some 8 ∧ v[3]? = some 0 := by
  refine ⟨(pidinfo_cases 4 _).1 (by norm_num), ?_⟩
  obtain ⟨v, h1, -, h3, h4, h5⟩ := (pidinfo_cases 4 ⟨1, 11, [7, 8]⟩).2 (by norm_num)
  exact ⟨v, h1, h3, (h4 1 (by norm_num) (by norm_num)).trans (by decide),
    h5 3 (by norm_num) (by norm_num)⟩

/-- C7: for every text query (`pidpath`, `name`, `regionfilename`), a
kernel return of n > 0 bytes is truncated to exactly the first n buffer
bytes and validated as UTF-8: the result is either the UTF-8 decoding of
those n bytes or the explicit UTF-8 decode error, which is distinct from
every OS query failure; a return ≤ 0 is an OS query failure. -/
theorem text_queries_utf8 (k : TextKernel) :
    (k.ret ≤ 0 →
      pidpath k = .error (.osError k.lastError) ∧
      name k = .error (.osError k.lastError) ∧
      regionfilename k = .error (.osError k.lastError)) ∧
    (0 < k.ret →
      (∃ cps, utf8Decode (k.bytes k.ret.toNat) = some cps ∧
        pidpath k = .ok (String.mk (cps.map Char.ofNat)) ∧
        name k = .ok (String.mk (cps.map Char.ofNat)) ∧
        regionfilename k = .ok (String.mk (cps.map Char.ofNat))) ∨
      (utf8Decode (k.bytes k.ret.toNat) = none ∧
        pidpath k = .error .utf8Error ∧
        name k = .error .utf8Error ∧
        regionfilename k = .error .utf8Error)) ∧
    (∀ e : Int, (ProcError.utf8Error : ProcError) ≠ .osError e) := by
  refine ⟨?_, ?_, fun e h => ProcError.noConfusion h⟩
  · intro h
    exact ⟨by simp [pidpath, h], by simp [name, h], by simp [regionfilename, h]⟩
  · intro h
    rcases hd : utf8Decode (k.bytes k.ret.toNat) with - | cps
    · exact Or.inr ⟨rfl, by simp [pidpath, not_le.mpr h, hd],
        by simp [name, not_le.mpr h, hd], by simp [regionfilename, not_le.mpr h, hd]⟩
    · exact Or.inl ⟨cps, rfl, by simp [pidpath, not_le.mpr h, hd],
        by simp [name, not_le.mpr h, hd], by simp [regionfilename, not_le.mpr h, hd]⟩

/-- Witness for C7: a failed query carries the errno; a 3-byte buffer
holding bytes 97, 98, 99 goes through the decode disjunction. -/
theorem text_queries_utf8_witness :
    pidpath ⟨-1, 9, fun _ => 0⟩ = .error (.osError 9) ∧
    ((∃ cps,
        utf8Decode (TextKernel.bytes ⟨3, 0, fun i => 97 + i⟩ (Int.toNat 3))
          = some cps ∧
        pidpath ⟨3, 0, fun i => 97 + i⟩ = .ok (String.mk (cps.map Char.ofNat)) ∧
        name ⟨3, 0, fun i => 97 + i⟩ = .ok (String.mk (cps.map Char.ofNat)) ∧
        regionfilename ⟨3, 0, fun i => 97 + i⟩
          = .ok (String.mk (cps.map Char.ofNat))) ∨
      (utf8Decode (TextKernel.bytes ⟨3, 0, fun i => 97 + i⟩ (Int.toNat 3))
          = none ∧
        pidpath ⟨3, 0, fun i => 97 + i⟩ = .error .utf8Error ∧
        name ⟨3, 0, fun i => 97 + i⟩ = .error .utf8Error ∧
        regionfilename ⟨3, 0, fun i => 97 + i⟩ = .error .utf8Error)) :=
  ⟨((text_queries_utf8 ⟨-1, 9, fun _ => 0⟩).1 (by norm_num)).1,
   (text_queries_utf8 ⟨3, 0, fun i => 97 + i⟩).2.1 (by norm_num)⟩

end LibProc
